import Mathlib

/-!
Verification of the fink-client alert consumer (fink_client/consumer.py).

The module under verification is glue code around two opaque external
dependencies: a Kafka broker client (confluent_kafka) and an Avro
schema codec (fastavro).  We embed the module shallowly:

* `_get_kafka_config` is translated directly as a pure function from an
  input option mapping to either a configuration mapping or a
  configuration error (the Python KeyError raised by config["group_id"]).
* `_get_alert_schema` has side effects (one HTTP GET, file writes, file
  reads, diagnostics printed to stdout).  It is translated as a pure
  function of an explicit environment (the outcome of the single HTTP
  request, the filesystem contents, and the json.load + fastavro
  parse_schema composition as an oracle) which returns the resolution
  result together with a trace of the effects performed.
* `_decode_avro_alert` delegates to fastavro.schemaless_reader.  The
  codec is external to the repository, so its schemaless writer/reader
  pair is modelled from the spec (section 4.3): a schema-driven,
  length-prefix-free binary layout with zigzag varint longs, union
  branch indices for optional fields, and field-order record encoding.
* `AlertConsumer` methods are translated with the broker client as an
  explicit oracle delivering messages; `poll` and `consume` become pure
  functions of the consumer state and the delivered messages.

Machine integers do not occur (Python integers are unbounded); byte
values are Nat below 256 as produced by the codec.
-/

namespace FinkClient

/-! ## Input and output option mappings

Python dicts with string keys and string values are modelled as
association lists looked up by first match; `'k' in d` is modelled as
`(dlookup d k).isSome`. -/

/-- First-match lookup in an association list, the model of Python
dict indexing (`d[k]`) and membership (`k in d`). -/
def dlookup : List (String × String) → String → Option String
  | [], _ => none
  | (k, v) :: rest, key => if k = key then some v else dlookup rest key

/-- The error raised while building the Kafka configuration: Python
raises KeyError when `config["group_id"]` is evaluated and the key is
absent. -/
inductive ConfigError where
  | missingGroupId : ConfigError
deriving DecidableEq

/-- Translation of `_get_kafka_config` (consumer.py lines 133-174).
The output association list lists keys in Python dict insertion order:
the four SASL keys (only when both `username` and `password` are
present in the input), then `group.id`, then `auto.offset.reset`
(inserted by `kafka_config.update(default_config)`), then
`bootstrap.servers` (the given value, or the three fallback servers
comma-joined). -/
def _get_kafka_config (config : List (String × String)) :
    Except ConfigError (List (String × String)) :=
  let sasl : List (String × String) :=
    match dlookup config "username", dlookup config "password" with
    | some u, some p =>
      [("security.protocol", "sasl_plaintext"),
       ("sasl.mechanism", "SCRAM-SHA-512"),
       ("sasl.username", u),
       ("sasl.password", p)]
    | _, _ => []
  match dlookup config "group_id" with
  | none => .error .missingGroupId
  | some gid =>
    let servers : String :=
      match dlookup config "bootstrap.servers" with
      | some s => s
      | none =>
        String.intercalate ","
          ["localhost:9093", "localhost:9094", "localhost:9095"]
    .ok (sasl ++
      [("group.id", gid),
       ("auto.offset.reset", "earliest"),
       ("bootstrap.servers", servers)])

/-! ## Avro values, schemas and the binary codec

Modelled from the spec: the schema codec (fastavro) is an external
dependency of the repository.  Per spec section 4.3 the layout is
length-prefix-free and schema-driven: longs are zigzag varints, an
optional field is a union written as a varint branch index (0 = null,
1 = the payload) followed by the payload, and a record is the
concatenation of its field encodings in schema field order. -/

/-- A decoded Avro datum: null, a (unbounded) long, or a record given
as named fields in schema order, the model of the dict returned by
fastavro.schemaless_reader. -/
inductive AvroValue where
  | null : AvroValue
  | long : Int → AvroValue
  | record : List (String × AvroValue) → AvroValue

mutual
/-- A parsed Avro schema as produced by fastavro.parse_schema,
restricted to the forms the round-trip claims exercise: null, long,
optional (union of null and a payload schema) and record. -/
inductive AvroSchema where
  | anull : AvroSchema
  | along : AvroSchema
  | aoptional : AvroSchema → AvroSchema
  | arecord : AvroRecordSchema → AvroSchema
/-- The ordered field list of a record schema. -/
inductive AvroRecordSchema where
  | nil : AvroRecordSchema
  | cons : String → AvroSchema → AvroRecordSchema → AvroRecordSchema
end

/-- Zigzag mapping of a signed long to the Nat actually written as a
varint: 0, -1, 1, -2, 2, ... map to 0, 1, 2, 3, 4, ... -/
def zigzag (i : Int) : Nat :=
  if 0 ≤ i then 2 * i.toNat else 2 * (-i).toNat - 1

/-- Inverse of `zigzag`. -/
def unzigzag (m : Nat) : Int :=
  if m % 2 = 0 then (m / 2 : Nat) else -((m / 2 : Nat) + 1)

/-- Base-128 little-endian varint emission, fuelled so that the
definition is structurally recursive (the quotient by 128 strictly
decreases, so fuel `n + 1` in `encodeVarint` is never exhausted). -/
def encodeVarintF : Nat → Nat → List Nat
  | 0, _ => []
  | fuel + 1, n =>
    if n < 128 then [n] else (n % 128 + 128) :: encodeVarintF fuel (n / 128)

/-- Base-128 little-endian varint emission with continuation bits. -/
def encodeVarint (n : Nat) : List Nat := encodeVarintF (n + 1) n

/-- Varint decoding; fails on a truncated input (continuation bit set
on the final byte). -/
def decodeVarint : List Nat → Option (Nat × List Nat)
  | [] => none
  | b :: rest =>
    if b < 128 then some (b, rest)
    else
      match decodeVarint rest with
      | some (n, rest2) => some ((b - 128) + 128 * n, rest2)
      | none => none

mutual
/-- Schemaless Avro encoding of one value against a schema (the writer
side of the codec contract; fails when the value does not match the
schema). -/
def encodeValue : AvroSchema → AvroValue → Option (List Nat)
  | .anull, .null => some []
  | .along, .long i => some (encodeVarint (zigzag i))
  | .aoptional _, .null => some (encodeVarint (zigzag 0))
  | .aoptional s, w => (encodeValue s w).map (fun b => encodeVarint (zigzag 1) ++ b)
  | .arecord fs, .record vs => encodeRecord fs vs
  | _, _ => none
/-- Field-by-field record encoding in schema field order. -/
def encodeRecord : AvroRecordSchema → List (String × AvroValue) → Option (List Nat)
  | .nil, [] => some []
  | .cons fn fs fr, (vn, vv) :: vr =>
    if fn = vn then
      match encodeValue fs vv, encodeRecord fr vr with
      | some b, some br => some (b ++ br)
      | _, _ => none
    else none
  | _, _ => none
end

mutual
/-- Schemaless Avro decoding of one value against a schema, returning
the value and the unread remainder; fails on truncated or structurally
invalid input (the model of the fastavro reader raising). -/
def decodeValue : AvroSchema → List Nat → Option (AvroValue × List Nat)
  | .anull, bs => some (.null, bs)
  | .along, bs =>
    match decodeVarint bs with
    | some (m, r) => some (.long (unzigzag m), r)
    | none => none
  | .aoptional s, bs =>
    match decodeVarint bs with
    | some (m, r) =>
      if unzigzag m = 0 then some (.null, r)
      else if unzigzag m = 1 then decodeValue s r
      else none
    | none => none
  | .arecord fs, bs =>
    match decodeRecord fs bs with
    | some (vs, r) => some (.record vs, r)
    | none => none
/-- Field-by-field record decoding in schema field order. -/
def decodeRecord : AvroRecordSchema → List Nat → Option (List (String × AvroValue) × List Nat)
  | .nil, bs => some ([], bs)
  | .cons fn fs fr, bs =>
    match decodeValue fs bs with
    | some (v, r) =>
      match decodeRecord fr r with
      | some (vs, r2) => some ((fn, v) :: vs, r2)
      | none => none
    | none => none
end

/-- A seekable byte stream, the model of io.BytesIO: the underlying
bytes plus the current position. -/
structure Buffer where
  bytes : List Nat
  pos : Nat

/-- Model of IOBase.seek: set the position, keep the bytes. -/
def Buffer.seek (b : Buffer) (p : Nat) : Buffer := ⟨b.bytes, p⟩

/-- Translation of `_decode_avro_alert` (consumer.py lines 219-236):
seek the stream to its start, then read exactly one record with
fastavro.schemaless_reader; any remainder past the record is left
unread.  Returns none where fastavro would raise a decode error. -/
def _decode_avro_alert (avro_alert : Buffer) (schema : AvroSchema) : Option AvroValue :=
  let b := avro_alert.seek 0
  match decodeValue schema (b.bytes.drop b.pos) with
  | some (v, _) => some v
  | none => none

/-! ## Schema resolution -/

/-- Outcome of the single `requests.get(schema_url, timeout=1)` call:
either a raised RequestException (timeout or connection error), or an
HTTP response of any status code carrying its body text.  requests
does not raise on a non-2xx status and the code never calls
raise_for_status, so status is carried but, faithfully to the source,
never inspected. -/
inductive FetchResult where
  | exc : FetchResult
  | resp : Nat → String → FetchResult

/-- The environment `_get_alert_schema` runs in: the network outcome,
the filesystem contents (none = reading that path raises IOError), and
the composition of json.load with fastavro.parse_schema as an oracle
(none = one of the two raises on that text). -/
structure SchemaEnv where
  fetch : FetchResult
  files : String → Option String
  parseSchemaText : String → Option AvroSchema

/-- Fatal schema-resolution failures: the read raising IOError, or the
json/fastavro parse raising on the content. -/
inductive SchemaError where
  | ioError : SchemaError
  | parseError : SchemaError
deriving DecidableEq

/-- The effects performed by one run of `_get_alert_schema`: whether
the HTTP request was issued, the (path, content) file writes, and the
lines printed to stdout. -/
structure ResolveTrace where
  fetched : Bool
  writes : List (String × String)
  diagnostics : List String

/-- The fixed remote schema URL (consumer.py line 199). -/
def schema_url : String :=
  "https://raw.github.com/astrolabsoftware/fink-broker/master/schemas/distribution_schema.avsc"

/-- The fixed cache path the fetched schema text is written to:
os.path.abspath of ../schemas/<last URL segment> relative to the
module directory, modelled as the install-relative string with the
last URL segment (distribution_schema.avsc) spelled out. -/
def cacheSchemaPath : String := "../schemas/distribution_schema.avsc"

/-- The bundled default schema path used as fallback, likewise
install-relative (consumer.py lines 207-208). -/
def defaultSchemaPath : String := "../schemas/fink_alert_schema.avsc"

/-- The line printed before the fetch is attempted (line 198). -/
def gettingSchemaMsg : String := "Getting schema from fink servers..."

/-- The non-fatal diagnostic printed on fallback, naming the fallback
location (lines 209-211). -/
def fallbackMsg : String :=
  "Could not obtain schema from fink servers\nUsing default schema available at: "
    ++ defaultSchemaPath

/-- A file read that sees the writes performed earlier in the same
run (the fetched text is written to the cache path and then that very
path is opened and read). -/
def readAfterWrites (writes : List (String × String)) (files : String → Option String)
    (path : String) : Option String :=
  match dlookup writes path with
  | some content => some content
  | none => files path

/-- The common tail of `_get_alert_schema`: open the chosen path, read
it (seeing the writes of this run), json.load the content and
fastavro.parse_schema the result; both failures are fatal. -/
def resolveReadParse (env : SchemaEnv) (writes : List (String × String))
    (path : String) : Except SchemaError AvroSchema :=
  match readAfterWrites writes env.files path with
  | none => .error .ioError
  | some content =>
    match env.parseSchemaText content with
    | none => .error .parseError
    | some parsed => .ok parsed

/-- Translation of `_get_alert_schema` (consumer.py lines 177-216).
With an explicit path: no fetch, no write, no print; read and parse
that path.  With no path: print the progress line and issue the GET;
if it raises RequestException, print the fallback diagnostic and use
the bundled default path; if it returns a response (any status), write
its body text to the fixed cache path and use that path.  Either way,
finish by reading and parsing the chosen path. -/
def _get_alert_schema (env : SchemaEnv) (schema_path : Option String) :
    Except SchemaError AvroSchema × ResolveTrace :=
  match schema_path with
  | some p => (resolveReadParse env [] p, ⟨false, [], []⟩)
  | none =>
    match env.fetch with
    | .resp _ text =>
      (resolveReadParse env [(cacheSchemaPath, text)] cacheSchemaPath,
        ⟨true, [(cacheSchemaPath, text)], [gettingSchemaMsg]⟩)
    | .exc =>
      (resolveReadParse env [] defaultSchemaPath,
        ⟨true, [], [gettingSchemaMsg, fallbackMsg]⟩)

/-! ## The consumer -/

/-- A delivered broker message slot, exposing the accessor results the
code uses: topic(), partition(), offset(), key(), value() and error()
(none = no embedded error, some d = a KafkaError with description d). -/
structure Message where
  topic : String
  partition : Int
  offset : Int
  key : Option String
  value : List Nat
  error : Option String

/-- Replace only the embedded broker error of a message slot. -/
def Message.withError (msg : Message) (e : Option String) : Message :=
  { msg with error := e }

/-- What Python interpolates for the unparenthesised `msg.error` in the
format call at consumer.py line 88: the repr of the bound method
object itself (CPython appends the object address, elided here), not
the KafkaError value. -/
def boundMethodErrorRepr : String := "<bound method Message.error of Message object>"

/-- Likewise what `str(msg.key)` at line 89 produces: the repr of the
bound method object, not the message key. -/
def boundMethodKeyRepr : String := "<bound method Message.key of Message object>"

/-- The AlertError message built at consumer.py lines 86-89.  The
format arguments are `msg.error` and `str(msg.key)` without calls, so
the interpolated text is the two bound-method reprs; only topic,
partition and offset are interpolated from the message data. -/
def pollErrorMessage (msg : Message) : String :=
  "Error: " ++ boundMethodErrorRepr ++ "\n" ++
    "topic: " ++ msg.topic ++ "[" ++ toString msg.partition ++ "] at offset: " ++
    toString msg.offset ++ " with key: " ++ boundMethodKeyRepr

/-- The errors a poll/consume call can raise: the AlertError raised for
a message with an embedded broker error (carrying the formatted
message), or the fastavro decode error propagating out of
`_decode_avro_alert`. -/
inductive PollError where
  | alertError : String → PollError
  | decodeError : PollError
deriving DecidableEq

/-- The consumer instance state set up by `__init__` (consumer.py lines
54-58): the subscribed topics, the built Kafka configuration, and the
schema parsed once at construction. -/
structure AlertConsumer where
  _topics : List String
  _kafka_config : List (String × String)
  _parsed_schema : AvroSchema

/-- The broker client as an oracle: what confluent_kafka returns from
poll(timeout) and consume(num, timeout). -/
structure BrokerModel where
  pollAt : Int → Option Message
  consumeAt : Nat → Int → List Message

/-- Translation of `AlertConsumer.poll` (consumer.py lines 66-96):
none from the broker gives (None, None); a message with a non-none
error() raises AlertError with the formatted context; otherwise the
value bytes are wrapped in a fresh BytesIO (position 0) and decoded
with the schema resolved at construction. -/
def AlertConsumer.poll (self : AlertConsumer) (broker : BrokerModel)
    (timeout : Int) : Except PollError (Option String × Option AvroValue) :=
  match broker.pollAt timeout with
  | none => .ok (none, none)
  | some msg =>
    if msg.error.isSome then
      .error (.alertError (pollErrorMessage msg))
    else
      match _decode_avro_alert ⟨msg.value, 0⟩ self._parsed_schema with
      | some alert => .ok (some msg.topic, some alert)
      | none => .error .decodeError

/-- The loop body of `AlertConsumer.consume` (consumer.py lines
116-126) over an already-delivered message list: decode each value and
pair it with its topic, in delivery order; error() is never consulted;
the first decode failure propagates. -/
def consumeMsgs (schema : AvroSchema) :
    List Message → Except PollError (List (String × AvroValue))
  | [] => .ok []
  | msg :: rest =>
    match _decode_avro_alert ⟨msg.value, 0⟩ schema with
    | some alert =>
      match consumeMsgs schema rest with
      | .ok alerts => .ok ((msg.topic, alert) :: alerts)
      | .error e => .error e
    | none => .error .decodeError

/-- Translation of `AlertConsumer.consume` (consumer.py lines 98-126):
ask the broker for up to num_alerts messages within timeout, then run
the decoding loop over the delivered batch. -/
def AlertConsumer.consume (self : AlertConsumer) (broker : BrokerModel)
    (num_alerts : Nat) (timeout : Int) :
    Except PollError (List (String × AvroValue)) :=
  consumeMsgs self._parsed_schema (broker.consumeAt num_alerts timeout)

/-- Construction failures: the KeyError from configuration building,
or a fatal schema-resolution error, in that evaluation order. -/
inductive InitError where
  | configError : ConfigError → InitError
  | schemaError : SchemaError → InitError
deriving DecidableEq

/-- The observable effects of one construction: the schema-resolution
trace, and whether the broker connection was opened and subscribed
(the last two statements of `__init__`). -/
structure InitTrace where
  resolve : ResolveTrace
  connected : Bool

/-- The trace of a construction that failed before schema resolution:
no fetch, no write, no print, no connection. -/
def emptyResolveTrace : ResolveTrace := ⟨false, [], []⟩

/-- Translation of `AlertConsumer.__init__` (consumer.py lines 35-58),
keeping Python statement order: `_get_kafka_config` runs first and its
KeyError propagates before `_get_alert_schema` performs any effect;
then the schema is resolved (a fatal resolution error propagates
before any connection is opened); then the confluent_kafka.Consumer is
created and subscribed. -/
def AlertConsumer.init (topics : List String) (config : List (String × String))
    (schema : Option String) (env : SchemaEnv) :
    Except InitError AlertConsumer × InitTrace :=
  match _get_kafka_config config with
  | .error e => (.error (.configError e), ⟨emptyResolveTrace, false⟩)
  | .ok kc =>
    match _get_alert_schema env schema with
    | (.error e, t) => (.error (.schemaError e), ⟨t, false⟩)
    | (.ok parsed, t) => (.ok ⟨topics, kc, parsed⟩, ⟨t, true⟩)

/-! ## Concrete schemas, records, messages and environments used by
witnesses and counterexamples -/

/-- A schema with no fields (the empty record). -/
def S_empty : AvroSchema := .arecord .nil

/-- The empty record. -/
def R_empty : AvroValue := .record []

/-- A record schema with a nested record field. -/
def S_nested : AvroSchema :=
  .arecord (.cons "a" .along (.cons "b" (.arecord (.cons "c" .along .nil)) .nil))

/-- A record with nested structure matching `S_nested`. -/
def R_nested : AvroValue :=
  .record [("a", .long 3), ("b", .record [("c", .long (-5))])]

/-- A record schema with two optional (union with null) fields. -/
def S_opt : AvroSchema :=
  .arecord (.cons "x" (.aoptional .along) (.cons "y" (.aoptional .along) .nil))

/-- A record with null-valued optional fields matching `S_opt`. -/
def R_opt : AvroValue := .record [("x", .null), ("y", .null)]

/-- Encoding of `R_empty` against `S_empty`. -/
def emptyBytes : List Nat := []

/-- Encoding of `R_nested` against `S_nested`: zigzag 3 = 6, zigzag -5 = 9. -/
def nestedBytes : List Nat := [6, 9]

/-- Encoding of `R_opt` against `S_opt`: two null branch indices. -/
def optBytes : List Nat := [0, 0]

/-- Body text of a non-2xx HTTP response from the schema URL. -/
def notFoundBody : String := "404: Not Found"

/-- Stand-in content of the bundled default schema file. -/
def defaultSchemaContent : String := "bundled-default-schema"

/-- An environment whose remote source answers the GET with a 404
response, whose filesystem holds a parseable bundled default schema,
and whose parser rejects the 404 body. -/
def c1env : SchemaEnv :=
  { fetch := .resp 404 notFoundBody,
    files := fun p => if p = defaultSchemaPath then some defaultSchemaContent else none,
    parseSchemaText := fun s => if s = defaultSchemaContent then some (.arecord .nil) else none }

/-- Schema of one long field, used by the poll error tests. -/
def c2schema : AvroSchema := .arecord (.cons "a" .along .nil)

/-- A consumer instance holding `c2schema`. -/
def c2consumer : AlertConsumer := ⟨["alerts"], [("group.id", "g1")], c2schema⟩

/-- A delivered message with an embedded broker error, key k1 and a
value that does not decode under `c2schema` (truncated varint). -/
def c2msg1 : Message := ⟨"alerts", 0, 42, some "k1", [255], some "KafkaError: partition issue"⟩

/-- The same message slot with key k2 instead of k1. -/
def c2msg2 : Message := { c2msg1 with key := some "k2" }

/-- A broker delivering `c2msg1` from poll. -/
def c2broker : BrokerModel := ⟨fun _ => some c2msg1, fun _ _ => []⟩

/-- A broker delivering `c2msg2` from poll. -/
def c2broker2 : BrokerModel := ⟨fun _ => some c2msg2, fun _ _ => []⟩

/-- An input option mapping with credentials and group id. -/
def c3cfg : List (String × String) :=
  [("username", "u1"), ("password", "p1"), ("group_id", "g1")]

/-- An input option mapping with credentials but no group id. -/
def c5cfg : List (String × String) := [("username", "u1"), ("password", "p1")]

/-- An environment for construction attempts (unreachable remote,
empty filesystem, rejecting parser). -/
def c5env : SchemaEnv := ⟨.exc, fun _ => none, fun _ => none⟩

/-- A consumer instance for the poll timeout test. -/
def c6consumer : AlertConsumer := ⟨["t"], [("group.id", "g")], .arecord .nil⟩

/-- A broker delivering nothing within any timeout. -/
def c6broker : BrokerModel := ⟨fun _ => none, fun _ _ => []⟩

/-- Schema of one long field for the consume batch test. -/
def c7schema : AvroSchema := .arecord (.cons "a" .along .nil)

/-- First batch message: value decodes to the long 3, no error. -/
def c7msg1 : Message := ⟨"t1", 0, 1, none, [6], none⟩

/-- Second batch message: value decodes to the long -5, and it carries
an embedded broker error that consume never inspects. -/
def c7msg2 : Message := ⟨"t2", 0, 2, none, [9], some "KafkaError: partition issue"⟩

/-- A broker delivering the two-message batch from consume. -/
def c7broker : BrokerModel := ⟨fun _ => none, fun _ _ => [c7msg1, c7msg2]⟩

/-- A consumer instance holding `c7schema`. -/
def c7consumer : AlertConsumer := ⟨["t1", "t2"], [("group.id", "g")], c7schema⟩

/-- The pairs consume returns for the `c7broker` batch. -/
def c7res : List (String × AvroValue) :=
  [("t1", .record [("a", .long 3)]), ("t2", .record [("a", .long (-5))])]

/-- An input option mapping with only a group id. -/
def c8cfg : List (String × String) := [("group_id", "g1")]

/-- An environment whose filesystem holds a parseable schema at the
explicit path local.avsc. -/
def c8env : SchemaEnv :=
  ⟨.exc, fun p => if p = "local.avsc" then some "LOCAL" else none,
    fun s => if s = "LOCAL" then some (.arecord .nil) else none⟩

/-- The consumer state construction produces from `c8cfg` and `c8env`
with explicit path local.avsc. -/
def c8consumer : AlertConsumer :=
  ⟨["alerts"],
   [("group.id", "g1"), ("auto.offset.reset", "earliest"),
    ("bootstrap.servers", "localhost:9093,localhost:9094,localhost:9095")],
   .arecord .nil⟩

/-- An input option mapping that tries to smuggle in an offset-reset
override and an arbitrary broker setting. -/
def c10cfg : List (String × String) :=
  [("group_id", "g1"), ("auto.offset.reset", "latest"), ("extra.option", "x")]

/-- The configuration built from `c10cfg`. -/
def c10out : List (String × String) :=
  [("group.id", "g1"), ("auto.offset.reset", "earliest"),
   ("bootstrap.servers", "localhost:9093,localhost:9094,localhost:9095")]

/-- The three keys every built configuration carries. -/
def baseKeys : List String := ["group.id", "auto.offset.reset", "bootstrap.servers"]

/-- The four keys present exactly when both credentials are given. -/
def saslKeys : List String :=
  ["security.protocol", "sasl.mechanism", "sasl.username", "sasl.password"]

/-! ## Theorems -/

/-- Claim C4: for every explicit schema path P, schema resolution uses
the content of P verbatim (the parse runs on exactly the text the
filesystem holds at P), performs no network call and no cache write,
and a read failure (IOError) or parse failure is returned as a fatal
error, not swallowed. -/
theorem c4_explicit_path_verbatim (env : SchemaEnv) (p : String) :
    _get_alert_schema env (some p) =
      ((match env.files p with
        | none => .error .ioError
        | some content =>
          match env.parseSchemaText content with
          | none => .error .parseError
          | some parsed => .ok parsed),
       ⟨false, [], []⟩) := by
  simp [_get_alert_schema, resolveReadParse, readAfterWrites, dlookup]

/-- Claim C6: for every consumer state, broker and timeout value, when
the broker client returns no message within the timeout, poll returns
(none, none) and never raises. -/
theorem c6_poll_timeout_returns_none (self : AlertConsumer) (broker : BrokerModel)
    (timeout : Int) (h : broker.pollAt timeout = none) :
    AlertConsumer.poll self broker timeout = .ok (none, none) := by
  simp [AlertConsumer.poll, h]

/-- Witness for C6: a broker with no message within timeout -1 makes
poll return (none, none). -/
theorem c6_poll_timeout_returns_none_witness :
    c6broker.pollAt (-1) = none ∧
    AlertConsumer.poll c6consumer c6broker (-1) = .ok (none, none) :=
  ⟨rfl, c6_poll_timeout_returns_none c6consumer c6broker (-1) rfl⟩

/-- Claim C9: for an empty record, a record with nested structure and
a record with null-valued optional fields, encoding against the given
schema and then decoding the resulting buffer with the same schema via
`_decode_avro_alert` — whatever the buffer position, since the decoder
rewinds to the start — yields the original record. -/
theorem c9_roundtrip_examples (pos : Nat) :
    (encodeValue S_empty R_empty = some emptyBytes ∧
      _decode_avro_alert ⟨emptyBytes, pos⟩ S_empty = some R_empty) ∧
    (encodeValue S_nested R_nested = some nestedBytes ∧
      _decode_avro_alert ⟨nestedBytes, pos⟩ S_nested = some R_nested) ∧
    (encodeValue S_opt R_opt = some optBytes ∧
      _decode_avro_alert ⟨optBytes, pos⟩ S_opt = some R_opt) :=
  ⟨⟨rfl, rfl⟩, ⟨rfl, rfl⟩, ⟨rfl, rfl⟩⟩

/-- Counterexample to claim C1 as stated: a non-2xx HTTP response is a
failed fetch, yet resolution does not fall back to the bundled default
schema (which here is present and parseable) and emits no fallback
diagnostic — instead the 404 body is written to the cache path and its
parse failure is fatal. -/
theorem c1_counterexample_non2xx :
    (_get_alert_schema c1env none).1 = .error .parseError ∧
    (_get_alert_schema c1env none).2.writes = [(cacheSchemaPath, notFoundBody)] ∧
    (_get_alert_schema c1env none).2.diagnostics = [gettingSchemaMsg] ∧
    c1env.fetch = .resp 404 notFoundBody ∧
    c1env.parseSchemaText defaultSchemaContent = some (.arecord .nil) :=
  ⟨rfl, rfl, rfl, rfl, rfl⟩

/-- Claim C1 as amended: when no explicit schema path is given, a
fetch raising a request exception (timeout or connection error) makes
resolution fall back to the bundled default schema file and emit the
non-fatal diagnostic naming the fallback location; on any received
HTTP response — regardless of status — the body text is first
persisted to the fixed cache path and then that persisted text is
parsed. -/
theorem c1_no_path_resolution (env : SchemaEnv) :
    _get_alert_schema env none =
      match env.fetch with
      | .exc =>
        ((match env.files defaultSchemaPath with
          | none => .error .ioError
          | some content =>
            match env.parseSchemaText content with
            | none => .error .parseError
            | some parsed => .ok parsed),
         ⟨true, [], [gettingSchemaMsg, fallbackMsg]⟩)
      | .resp _ text =>
        ((match env.parseSchemaText text with
          | none => .error .parseError
          | some parsed => .ok parsed),
         ⟨true, [(cacheSchemaPath, text)], [gettingSchemaMsg]⟩) := by
  cases h : env.fetch with
  | exc => simp [_get_alert_schema, resolveReadParse, readAfterWrites, dlookup, h]
  | resp status text => simp [_get_alert_schema, resolveReadParse, readAfterWrites, dlookup, h]

/-- Claim C5: for every input option mapping lacking group_id,
construction fails with the configuration error raised while building
the configuration, before any schema-resolution effect (no fetch, no
write, no diagnostic) and before any broker connection; group_id is
never silently defaulted. -/
theorem c5_missing_group_id_fails_fast (topics : List String)
    (config : List (String × String)) (schema : Option String) (env : SchemaEnv)
    (h : dlookup config "group_id" = none) :
    AlertConsumer.init topics config schema env =
      (.error (.configError .missingGroupId), ⟨emptyResolveTrace, false⟩) := by
  simp [AlertConsumer.init, _get_kafka_config, h]

/-- Witness for C5: a mapping with credentials but no group_id makes
construction fail fast with the configuration error and an empty
effect trace. -/
theorem c5_missing_group_id_fails_fast_witness :
    dlookup c5cfg "group_id" = none ∧
    AlertConsumer.init ["t"] c5cfg none c5env =
      (.error (.configError .missingGroupId), ⟨emptyResolveTrace, false⟩) :=
  ⟨rfl, c5_missing_group_id_fails_fast ["t"] c5cfg none c5env rfl⟩

/-- Helper: the exact value `_get_kafka_config` builds once group_id is
present, as a function of the three optional inputs. -/
theorem get_kafka_config_eq (config : List (String × String)) (gid : String)
    (h : dlookup config "group_id" = some gid) :
    _get_kafka_config config = .ok (
      (match dlookup config "username", dlookup config "password" with
       | some u, some p =>
         [("security.protocol", "sasl_plaintext"),
          ("sasl.mechanism", "SCRAM-SHA-512"),
          ("sasl.username", u),
          ("sasl.password", p)]
       | _, _ => []) ++
      [("group.id", gid),
       ("auto.offset.reset", "earliest"),
       ("bootstrap.servers",
         match dlookup config "bootstrap.servers" with
         | some s => s
         | none => "localhost:9093,localhost:9094,localhost:9095")]) := by
  unfold _get_kafka_config
  rw [h]
  rcases dlookup config "bootstrap.servers" with _ | s <;> rfl

/-- Claim C3: for every input mapping containing group_id, the built
configuration sets group.id to the given value and auto.offset.reset
to earliest; it carries the four SASL fields, with the given
credentials, exactly when both username and password are present; and
bootstrap.servers is the given value when supplied, else the three
fallback localhost addresses comma-joined in order. -/
theorem c3_kafka_config_contract (config : List (String × String)) (gid : String)
    (h : dlookup config "group_id" = some gid) :
    ∃ out, _get_kafka_config config = .ok out ∧
      dlookup out "group.id" = some gid ∧
      dlookup out "auto.offset.reset" = some "earliest" ∧
      (∀ u p, dlookup config "username" = some u →
        dlookup config "password" = some p →
        dlookup out "security.protocol" = some "sasl_plaintext" ∧
        dlookup out "sasl.mechanism" = some "SCRAM-SHA-512" ∧
        dlookup out "sasl.username" = some u ∧
        dlookup out "sasl.password" = some p) ∧
      (¬((dlookup config "username").isSome ∧ (dlookup config "password").isSome) →
        dlookup out "security.protocol" = none ∧
        dlookup out "sasl.mechanism" = none ∧
        dlookup out "sasl.username" = none ∧
        dlookup out "sasl.password" = none) ∧
      (∀ s, dlookup config "bootstrap.servers" = some s →
        dlookup out "bootstrap.servers" = some s) ∧
      (dlookup config "bootstrap.servers" = none →
        dlookup out "bootstrap.servers" =
          some "localhost:9093,localhost:9094,localhost:9095") := by
  have hshape := get_kafka_config_eq config gid h
  rcases hu : dlookup config "username" with _ | u <;>
    rcases hp : dlookup config "password" with _ | p <;>
      rcases hb : dlookup config "bootstrap.servers" with _ | s <;>
        simp only [hu, hp, hb] at hshape <;>
          exact ⟨_, hshape, by simp [dlookup], by simp [dlookup],
            by simp [hu, hp, dlookup], by simp [hu, hp, dlookup],
            by simp [hb, dlookup], by simp [hb, dlookup]⟩

/-- Witness for C3: with username u1, password p1, group_id g1 and no
bootstrap.servers, the contract holds of the built configuration. -/
theorem c3_kafka_config_contract_witness :
    dlookup c3cfg "group_id" = some "g1" ∧
    (∃ out, _get_kafka_config c3cfg = .ok out ∧
      dlookup out "group.id" = some "g1" ∧
      dlookup out "auto.offset.reset" = some "earliest" ∧
      (∀ u p, dlookup c3cfg "username" = some u →
        dlookup c3cfg "password" = some p →
        dlookup out "security.protocol" = some "sasl_plaintext" ∧
        dlookup out "sasl.mechanism" = some "SCRAM-SHA-512" ∧
        dlookup out "sasl.username" = some u ∧
        dlookup out "sasl.password" = some p) ∧
      (¬((dlookup c3cfg "username").isSome ∧ (dlookup c3cfg "password").isSome) →
        dlookup out "security.protocol" = none ∧
        dlookup out "sasl.mechanism" = none ∧
        dlookup out "sasl.username" = none ∧
        dlookup out "sasl.password" = none) ∧
      (∀ s, dlookup c3cfg "bootstrap.servers" = some s →
        dlookup out "bootstrap.servers" = some s) ∧
      (dlookup c3cfg "bootstrap.servers" = none →
        dlookup out "bootstrap.servers" =
          some "localhost:9093,localhost:9094,localhost:9095")) :=
  ⟨rfl, c3_kafka_config_contract c3cfg "g1" rfl⟩

/-- Claim C10: for every input mapping, every key of the built
configuration is one of group.id, auto.offset.reset,
bootstrap.servers, or — only when both username and password are
present in the input — one of the four SASL keys; and whatever the
input tries to set, auto.offset.reset comes out as earliest. -/
theorem c10_no_extra_keys (config out : List (String × String))
    (h : _get_kafka_config config = .ok out) :
    (∀ k v, (k, v) ∈ out → k ∈ baseKeys ∨
      (((dlookup config "username").isSome ∧ (dlookup config "password").isSome) ∧
        k ∈ saslKeys)) ∧
    dlookup out "auto.offset.reset" = some "earliest" := by
  rcases hg : dlookup config "group_id" with _ | gid
  · rw [_get_kafka_config, hg] at h
    exact absurd h (by simp)
  · have hshape := get_kafka_config_eq config gid hg
    rw [hshape] at h
    have hout : out = _ := (Except.ok.inj h).symm
    subst hout
    rcases hu : dlookup config "username" with _ | u <;>
      rcases hp : dlookup config "password" with _ | p <;>
        simp [hu, hp, baseKeys, saslKeys, dlookup] <;>
          rintro k v (⟨rfl, rfl⟩ | ⟨rfl, rfl⟩ | ⟨rfl, rfl⟩ | ⟨rfl, rfl⟩ |
            ⟨rfl, rfl⟩ | ⟨rfl, rfl⟩ | ⟨rfl, rfl⟩) <;> simp

/-- Witness for C10: an input trying to override auto.offset.reset and
to add an arbitrary broker option yields a configuration with only the
three base keys and auto.offset.reset = earliest. -/
theorem c10_no_extra_keys_witness :
    _get_kafka_config c10cfg = .ok c10out ∧
    ((∀ k v, (k, v) ∈ c10out → k ∈ baseKeys ∨
      (((dlookup c10cfg "username").isSome ∧ (dlookup c10cfg "password").isSome) ∧
        k ∈ saslKeys)) ∧
    dlookup c10out "auto.offset.reset" = some "earliest") :=
  ⟨rfl, c10_no_extra_keys c10cfg c10out rfl⟩

/-- Claim C2, evaluated at the failing input: a polled message with an
embedded broker error raises AlertError before any decode is attempted
(the value bytes do not even decode, yet the result is the AlertError,
not the decode error), but the raised message does not carry the key:
the code interpolates the bound methods msg.error and str(msg.key)
without calling them, so two messages differing only in key raise the
identical error text, which contains the method reprs in place of the
error and key values. -/
theorem c2_poll_broker_error_key_lost :
    AlertConsumer.poll c2consumer c2broker (-1) =
      .error (.alertError (pollErrorMessage c2msg1)) ∧
    _decode_avro_alert ⟨c2msg1.value, 0⟩ c2schema = none ∧
    c2msg1.key = some "k1" ∧ c2msg2.key = some "k2" ∧
    AlertConsumer.poll c2consumer c2broker2 (-1) =
      .error (.alertError (pollErrorMessage c2msg1)) ∧
    pollErrorMessage c2msg1 =
      "Error: " ++ boundMethodErrorRepr ++
        "\ntopic: alerts[0] at offset: 42 with key: " ++ boundMethodKeyRepr :=
  ⟨rfl, rfl, rfl, rfl, rfl, rfl⟩

/-- Helper: a successful consume returns exactly one pair per
delivered message, in delivery order — the i-th pair is the i-th
message topic with its decoded value. -/
theorem consumeMsgs_ok_spec (schema : AvroSchema) (msgs : List Message)
    (res : List (String × AvroValue)) (h : consumeMsgs schema msgs = .ok res) :
    res.length = msgs.length ∧
    ∀ i : Nat, res.get? i = (msgs.get? i).bind
      (fun msg => (_decode_avro_alert ⟨msg.value, 0⟩ schema).map
        (fun alert => (msg.topic, alert))) := by
  induction msgs generalizing res with
  | nil =>
    simp only [consumeMsgs] at h
    cases h
    simp
  | cons msg rest ih =>
    simp only [consumeMsgs] at h
    rcases hd : _decode_avro_alert ⟨msg.value, 0⟩ schema with _ | alert
    · rw [hd] at h; exact absurd h (by simp)
    · rw [hd] at h
      rcases hr : consumeMsgs schema rest with e | alerts
      · rw [hr] at h; exact absurd h (by simp)
      · rw [hr] at h
        have hres : (msg.topic, alert) :: alerts = res := Except.ok.inj h
        subst hres
        obtain ⟨hlen, hget⟩ := ih alerts hr
        refine ⟨by simp [hlen], fun i => ?_⟩
        cases i with
        | zero => simp [hd]
        | succ j => simpa using hget j

/-- Helper: consume never inspects the embedded broker error of any
message in the batch — rewriting every error field arbitrarily leaves
the result unchanged. -/
theorem consumeMsgs_error_blind (schema : AvroSchema) (f : Message → Option String)
    (msgs : List Message) :
    consumeMsgs schema (msgs.map (fun m => m.withError (f m))) =
      consumeMsgs schema msgs := by
  induction msgs with
  | nil => rfl
  | cons msg rest ih =>
    simp only [List.map_cons, consumeMsgs, Message.withError] at ih ⊢
    rw [ih]

/-- Claim C7: when the broker client honours its contract and delivers
at most n messages, consume(n, t) returns at most n pairs — exactly
one pair per delivered message, in delivery order, pairing the message
topic with its decoded value — and it never inspects per-message
broker errors or raises on them (rewriting every error field leaves
the outcome unchanged), asymmetrically with poll. -/
theorem c7_consume_batch (self : AlertConsumer) (broker : BrokerModel)
    (n : Nat) (t : Int) (res : List (String × AvroValue))
    (hlen : (broker.consumeAt n t).length ≤ n)
    (hok : AlertConsumer.consume self broker n t = .ok res) :
    res.length ≤ n ∧
    res.length = (broker.consumeAt n t).length ∧
    (∀ i : Nat, res.get? i = ((broker.consumeAt n t).get? i).bind
      (fun msg => (_decode_avro_alert ⟨msg.value, 0⟩ self._parsed_schema).map
        (fun alert => (msg.topic, alert)))) ∧
    (∀ f : Message → Option String,
      consumeMsgs self._parsed_schema
        ((broker.consumeAt n t).map (fun msg => msg.withError (f msg))) =
      consumeMsgs self._parsed_schema (broker.consumeAt n t)) := by
  obtain ⟨hl, hg⟩ :=
    consumeMsgs_ok_spec self._parsed_schema (broker.consumeAt n t) res hok
  exact ⟨by omega, hl, hg,
    fun f => consumeMsgs_error_blind self._parsed_schema f _⟩

/-- Witness for C7: a two-message batch within n = 2, the second
message carrying an embedded broker error, yields exactly the two
pairs in delivery order with no error raised. -/
theorem c7_consume_batch_witness :
    (c7broker.consumeAt 2 (-1)).length ≤ 2 ∧
    AlertConsumer.consume c7consumer c7broker 2 (-1) = .ok c7res ∧
    (c7res.length ≤ 2 ∧
     c7res.length = (c7broker.consumeAt 2 (-1)).length ∧
     (∀ i : Nat, c7res.get? i = ((c7broker.consumeAt 2 (-1)).get? i).bind
       (fun msg => (_decode_avro_alert ⟨msg.value, 0⟩ c7consumer._parsed_schema).map
         (fun alert => (msg.topic, alert)))) ∧
     (∀ f : Message → Option String,
       consumeMsgs c7consumer._parsed_schema
         ((c7broker.consumeAt 2 (-1)).map (fun msg => msg.withError (f msg))) =
       consumeMsgs c7consumer._parsed_schema (c7broker.consumeAt 2 (-1)))) :=
  ⟨by decide, rfl, c7_consume_batch c7consumer c7broker 2 (-1) c7res (by decide) rfl⟩

/-- Claim C8: a consumer constructed successfully holds exactly the
schema resolved at construction, and both poll and consume decode
every message with that held schema and nothing else — they take no
schema environment at all, so no re-resolution can occur during the
instance lifetime, whatever the remote source does later. -/
theorem c8_schema_resolved_once (topics : List String)
    (config : List (String × String)) (schema : Option String) (env : SchemaEnv)
    (self : AlertConsumer) (tr : InitTrace)
    (h : AlertConsumer.init topics config schema env = (.ok self, tr)) :
    (_get_alert_schema env schema).1 = .ok self._parsed_schema ∧
    (∀ (broker : BrokerModel) (t : Int) (msg : Message),
      broker.pollAt t = some msg → msg.error = none →
      AlertConsumer.poll self broker t =
        match _decode_avro_alert ⟨msg.value, 0⟩ self._parsed_schema with
        | some alert => .ok (some msg.topic, some alert)
        | none => .error .decodeError) ∧
    (∀ (broker : BrokerModel) (n : Nat) (t : Int),
      AlertConsumer.consume self broker n t =
        consumeMsgs self._parsed_schema (broker.consumeAt n t)) := by
  refine ⟨?_, ?_, fun broker n t => rfl⟩
  · unfold AlertConsumer.init at h
    rcases hk : _get_kafka_config config with e | kc
    · rw [hk] at h; exact absurd h (by simp)
    · rw [hk] at h
      rcases hs : _get_alert_schema env schema with ⟨r, t2⟩
      rw [hs] at h
      rcases r with e | parsed
      · exact absurd h (by simp)
      · have h1 : AlertConsumer.mk topics kc parsed = self := by
          have := congrArg Prod.fst h
          simpa using this
        subst h1
        rfl
  · intro broker t msg hbp herr
    rw [AlertConsumer.poll, hbp]
    simp [herr]

/-- Witness for C8: a successful construction from an explicit local
schema path produces a consumer holding that parsed schema, and its
poll and consume use exactly that held schema. -/
theorem c8_schema_resolved_once_witness :
    AlertConsumer.init ["alerts"] c8cfg (some "local.avsc") c8env =
      (.ok c8consumer, ⟨⟨false, [], []⟩, true⟩) ∧
    ((_get_alert_schema c8env (some "local.avsc")).1 = .ok c8consumer._parsed_schema ∧
     (∀ (broker : BrokerModel) (t : Int) (msg : Message),
       broker.pollAt t = some msg → msg.error = none →
       AlertConsumer.poll c8consumer broker t =
         match _decode_avro_alert ⟨msg.value, 0⟩ c8consumer._parsed_schema with
         | some alert => .ok (some msg.topic, some alert)
         | none => .error .decodeError) ∧
     (∀ (broker : BrokerModel) (n : Nat) (t : Int),
       AlertConsumer.consume c8consumer broker n t =
         consumeMsgs c8consumer._parsed_schema (broker.consumeAt n t))) :=
  ⟨rfl, c8_schema_resolved_once ["alerts"] c8cfg (some "local.avsc") c8env
    c8consumer ⟨⟨false, [], []⟩, true⟩ rfl⟩

end FinkClient
